import Mathlib

/-!
Verification of the filter/sort pipeline of the Military-Dash-Report
dashboard (`dashtest.py`).

The embedding models:
- a loaded table as an ordered list of column names plus an ordered list of
  rows, each row an association list from column name to a scalar value
  (`Value`: null, text, or integer);
- Python's `str.strip()`, `str.lower()`, the `in` substring test and `str()`
  of an integer over lists of character codes (`List Nat`), so that every
  definition evaluates inside the kernel;
- `find_column` (the fuzzy column resolver, `dashtest.py` lines 165-173)
  as the same two early-return scan loops;
- the callback `update_table` (lines 187-218) as a function from the four
  control values and the loaded table to `Except` of (rows, columns,
  message); the `Except.error` case models the uncaught `KeyError` raised
  by `df_filtered["Person_Instance_ID"]` when that column is absent.
  pandas `sort_values` with its default `kind="quicksort"` leaves the
  relative order of equal-key rows implementation-defined (it is not a
  stable sort), so the model picks one concrete correct sort
  (`List.mergeSort`) by the chosen column's value with null values placed
  last per `na_position="last"`; no theorem below depends on the tie order
  this choice happens to produce — only on the output being a permutation
  of the input that is sorted by the key.
-/

namespace MilitaryDash

/-- Scalar cell value of the loaded table: SQL NULL / NaN, a text value, or
a numeric value (modelled as an integer). -/
inductive Value where
  | null : Value
  | str (s : String) : Value
  | num (n : Int) : Value
deriving DecidableEq, Repr

/-- One row: an association list from column name to cell value.  The load
invariant is that every row carries an entry for every declared column. -/
abbrev Row := List (String × Value)

/-- A rectangular in-memory table: ordered column names plus ordered rows. -/
structure Table where
  columns : List String
  rows : List Row
deriving DecidableEq, Repr

/-- Reading a cell: pandas row access by column label (absent keys behave
as null, which the load invariant rules out for declared columns). -/
def getVal (r : Row) (c : String) : Value :=
  (r.lookup c).getD Value.null

/-- Character codes of a string, the representation on which the Python
string operations are modelled. -/
def toCodes (s : String) : List Nat :=
  s.data.map Char.toNat

/-- ASCII whitespace recognised by Python's `str.strip()`. -/
def isWS (n : Nat) : Bool :=
  n == 32 || n == 9 || n == 10 || n == 13 || n == 11 || n == 12

/-- Python `str.strip()` on character codes: drop whitespace from both ends. -/
def trimCodes (l : List Nat) : List Nat :=
  ((l.dropWhile isWS).reverse.dropWhile isWS).reverse

/-- Python `str.lower()` on one character code (ASCII case mapping). -/
def lowerCode (n : Nat) : Nat :=
  if 65 ≤ n ∧ n ≤ 90 then n + 32 else n

/-- Python `str.lower()` on character codes. -/
def lowerCodes (l : List Nat) : List Nat :=
  l.map lowerCode

/-- The normalisation `s.strip().lower()` used by the column resolver. -/
def pyNorm (s : String) : List Nat :=
  lowerCodes (trimCodes (toCodes s))

/-- The trimming `s.strip()` used when comparing filter selections. -/
def pyStrip (s : String) : List Nat :=
  trimCodes (toCodes s)

/-- Python's substring test `pat in hay` on character codes. -/
def subOf (pat : List Nat) : List Nat → Bool
  | [] => pat.isEmpty
  | h :: t => pat.isPrefixOf (h :: t) || subOf pat t

/-- Decimal digit codes of a natural number (fuel-driven so it reduces). -/
def natDigits : Nat → Nat → List Nat
  | 0, _ => []
  | fuel + 1, n =>
    if n < 10 then [48 + n] else natDigits fuel (n / 10) ++ [48 + n % 10]

/-- Python `str()` of an integer, as character codes. -/
def intCodes : Int → List Nat
  | Int.ofNat n => natDigits (n + 1) n
  | Int.negSucc m => 45 :: natDigits (m + 2) (m + 1)

/-- Reading a cell "as text": pandas `astype("string")` keeps nulls as NA,
keeps text, and renders numbers in decimal. -/
def valueCodes : Value → Option (List Nat)
  | Value.null => none
  | Value.str s => some (toCodes s)
  | Value.num n => some (intCodes n)

/-- Trimmed text of the cell at column `c` of row `r`: the per-row value of
the series `df[c].astype("string").str.strip()` (none models NA). -/
def trimmedVal (r : Row) (c : String) : Option (List Nat) :=
  (valueCodes (getVal r c)).map trimCodes

/-- First scan loop of `find_column` (dashtest.py lines 167-169): first
column whose truthy name normalises to the normalised target. -/
def findExactLoop : List String → List Nat → Option String
  | [], _ => none
  | c :: cs, tl =>
    if !(c == "") && pyNorm c == tl then some c else findExactLoop cs tl

/-- Second scan loop of `find_column` (dashtest.py lines 170-172): first
column whose truthy normalised name contains the normalised target. -/
def findSubLoop : List String → List Nat → Option String
  | [], _ => none
  | c :: cs, tl =>
    if !(c == "") && subOf tl (pyNorm c) then some c else findSubLoop cs tl

/-- Column resolver `find_column(df, target_name)` (dashtest.py 165-173). -/
def find_column (df : Table) (target_name : String) : Option String :=
  let target_lower := pyNorm target_name
  match findExactLoop df.columns target_lower with
  | some c => some c
  | none => findSubLoop df.columns target_lower

/-- Resolver as the claim words it, without any skipping of empty-named
columns: first exact normalised match, else first normalised-substring
match (target contained in column). -/
def find_column_claimed (df : Table) (target_name : String) : Option String :=
  let target_lower := pyNorm target_name
  match df.columns.find? (fun c => pyNorm c == target_lower) with
  | some c => some c
  | none => df.columns.find? (fun c => subOf target_lower (pyNorm c))

/-- Resolver as amended: identical to the claim's description except that
columns whose name is empty are skipped in both passes. -/
def find_column_described (df : Table) (target_name : String) : Option String :=
  let target_lower := pyNorm target_name
  match df.columns.find? (fun c => !(c == "") && pyNorm c == target_lower) with
  | some c => some c
  | none => df.columns.find? (fun c => !(c == "") && subOf target_lower (pyNorm c))

/-- The callback's `all_data.copy()` (dashtest.py line 188). -/
def copyTable (t : Table) : Table :=
  { columns := t.columns, rows := t.rows }

/-- Employee-ID filter (dashtest.py lines 191-192).  `Except.error` models
the `KeyError` pandas raises when `Person_Instance_ID` is not a column. -/
def empFilter (df : Table) (emp_id : Option Int) : Except String Table :=
  match emp_id with
  | none => Except.ok df
  | some n =>
    if trimCodes (intCodes n) == [] then Except.ok df
    else if "Person_Instance_ID" ∈ df.columns then
      Except.ok { df with
        rows := df.rows.filter (fun r => getVal r "Person_Instance_ID" == Value.num n) }
    else Except.error "KeyError: Person_Instance_ID"

/-- Military-status filter (dashtest.py lines 197-202), applied once the
status column `ar_col` has been resolved. -/
def militaryFilter (df : Table) (ar_col : String) (military_status : Option String) :
    Table :=
  match military_status with
  | none => df
  | some s =>
    if s == "" then df
    else if s == "__NONE__" then
      { df with rows := df.rows.filter (fun r =>
          (trimmedVal r ar_col).isNone || trimmedVal r ar_col == some []) }
    else
      { df with rows := df.rows.filter (fun r =>
          trimmedVal r ar_col == some (pyStrip s)) }

/-- Lexicographic order on code lists: how pandas compares two text values. -/
def codeListLE : List Nat → List Nat → Bool
  | [], _ => true
  | _ :: _, [] => false
  | a :: as, b :: bs => a < b || (a == b && codeListLE as bs)

/-- Ascending key order used by `sort_values`: nulls last, numbers by
integer order, texts lexicographically (numbers before texts across kinds). -/
def keyLE : Value → Value → Bool
  | Value.null, Value.null => true
  | Value.null, _ => false
  | _, Value.null => true
  | Value.num a, Value.num b => a ≤ b
  | Value.str a, Value.str b => codeListLE (toCodes a) (toCodes b)
  | Value.num _, Value.str _ => true
  | Value.str _, Value.num _ => false

/-- Descending key order used by `sort_values(ascending=False)`: the
non-null comparisons flip while nulls stay last. -/
def keyLEDesc : Value → Value → Bool
  | Value.null, Value.null => true
  | Value.null, _ => false
  | _, Value.null => true
  | a, b => keyLE b a

/-- Row comparison for the sort step: by the value at `sort_col`, ascending
exactly when the direction equals "asc". -/
def rowLE (sort_col : String) (asc : Bool) (r1 r2 : Row) : Bool :=
  if asc then keyLE (getVal r1 sort_col) (getVal r2 sort_col)
  else keyLEDesc (getVal r1 sort_col) (getVal r2 sort_col)

/-- Sort step (dashtest.py lines 207-209): skipped unless `sort_col` is a
truthy name present in the columns of the table so far.  `sort_values`
with the default `kind="quicksort"` sorts by the key but leaves the
relative order of equal-key rows implementation-defined; `List.mergeSort`
stands in as one concrete correct sort, and no theorem relies on the tie
order it picks. -/
def sortStep (df : Table) (sort_col : Option String) (sort_order : String) : Table :=
  match sort_col with
  | none => df
  | some sc =>
    if sc == "" then df
    else if sc ∈ df.columns then
      { df with rows := df.rows.mergeSort (rowLE sc (sort_order == "asc")) }
    else df

/-- Message returned when the status column cannot be resolved
(dashtest.py line 204). -/
def colNotFoundMsg : String := "⚠️ Column 'Ar_Military' not found."

/-- Message returned when the filters leave no rows (dashtest.py line 212). -/
def noDataMsg : String := "⚠️ No data found with current filters."

/-- Output triple of the callback: row records, column list, message. -/
abbrev TableOutput := List Row × List String × String

/-- The callback `update_table(emp_id, military_status, sort_col,
sort_order)` (dashtest.py lines 187-218), with the loaded table explicit. -/
def update_table (emp_id : Option Int) (military_status : Option String)
    (sort_col : Option String) (sort_order : String) (all_data : Table) :
    Except String TableOutput :=
  match empFilter (copyTable all_data) emp_id with
  | Except.error e => Except.error e
  | Except.ok df1 =>
    match find_column df1 "Ar_Military" with
    | none => Except.ok ([], [], colNotFoundMsg)
    | some ar_col =>
      let df2 := militaryFilter df1 ar_col military_status
      let df3 := sortStep df2 sort_col sort_order
      if df3.rows.isEmpty then Except.ok ([], [], noDataMsg)
      else Except.ok (df3.rows, df3.columns, "")

/-! ### Resolver characterisation -/

theorem findExactLoop_eq_find? (cols : List String) (tl : List Nat) :
    findExactLoop cols tl = cols.find? (fun c => !(c == "") && pyNorm c == tl) := by
  induction cols with
  | nil => rfl
  | cons c cs ih =>
    cases h : (!(c == "") && pyNorm c == tl) <;>
      simp [findExactLoop, List.find?_cons, h, ih]

theorem findSubLoop_eq_find? (cols : List String) (tl : List Nat) :
    findSubLoop cols tl = cols.find? (fun c => !(c == "") && subOf tl (pyNorm c)) := by
  induction cols with
  | nil => rfl
  | cons c cs ih =>
    cases h : (!(c == "") && subOf tl (pyNorm c)) <;>
      simp [findSubLoop, List.find?_cons, h, ih]

/-! ### Frame lemmas: every step leaves the column list unchanged -/

theorem empFilter_columns (df : Table) (e : Option Int) (df1 : Table)
    (h : empFilter df e = Except.ok df1) : df1.columns = df.columns := by
  cases e with
  | none => simp only [empFilter] at h; cases h; rfl
  | some n =>
    simp only [empFilter] at h
    split at h
    · cases h; rfl
    · split at h
      · cases h; rfl
      · cases h

theorem militaryFilter_columns (df : Table) (c : String) (ms : Option String) :
    (militaryFilter df c ms).columns = df.columns := by
  cases ms with
  | none => rfl
  | some s =>
    simp only [militaryFilter]
    split
    · rfl
    · split <;> rfl

theorem sortStep_columns (df : Table) (sc : Option String) (so : String) :
    (sortStep df sc so).columns = df.columns := by
  cases sc with
  | none => rfl
  | some s =>
    simp only [sortStep]
    split
    · rfl
    · split <;> rfl

/-! ### Frame lemmas: rows are only removed (filters) or permuted (sort) -/

theorem empFilter_rows_sublist (df : Table) (e : Option Int) (df1 : Table)
    (h : empFilter df e = Except.ok df1) : df1.rows.Sublist df.rows := by
  cases e with
  | none => simp only [empFilter] at h; cases h; exact List.Sublist.refl _
  | some n =>
    simp only [empFilter] at h
    split at h
    · cases h; exact List.Sublist.refl _
    · split at h
      · cases h; exact List.filter_sublist _
      · cases h

theorem militaryFilter_rows_sublist (df : Table) (c : String) (ms : Option String) :
    (militaryFilter df c ms).rows.Sublist df.rows := by
  cases ms with
  | none => exact List.Sublist.refl _
  | some s =>
    simp only [militaryFilter]
    split
    · exact List.Sublist.refl _
    · split <;> exact List.filter_sublist _

theorem sortStep_rows_perm (df : Table) (sc : Option String) (so : String) :
    (sortStep df sc so).rows.Perm df.rows := by
  cases sc with
  | none => exact List.Perm.refl _
  | some s =>
    simp only [sortStep]
    split
    · exact List.Perm.refl _
    · split
      · exact List.mergeSort_perm _ _
      · exact List.Perm.refl _

/-! ### The sort comparison is reflexive, total and transitive -/

theorem codeListLE_refl (a : List Nat) : codeListLE a a = true := by
  induction a with
  | nil => rfl
  | cons x xs ih => simp [codeListLE, ih]

theorem codeListLE_total (a b : List Nat) :
    (codeListLE a b || codeListLE b a) = true := by
  induction a generalizing b with
  | nil => simp [codeListLE]
  | cons x xs ih =>
    cases b with
    | nil => simp [codeListLE]
    | cons y ys =>
      simp only [codeListLE, Bool.or_eq_true, Bool.and_eq_true, beq_iff_eq,
        decide_eq_true_eq]
      by_cases hxy : x = y
      · subst hxy
        rcases Bool.or_eq_true _ _ |>.mp (ih ys) with h | h
        · exact Or.inl (Or.inr ⟨rfl, h⟩)
        · exact Or.inr (Or.inr ⟨rfl, h⟩)
      · rcases Nat.lt_or_ge x y with h | h
        · exact Or.inl (Or.inl h)
        · exact Or.inr (Or.inl (by omega))

theorem codeListLE_trans (a b c : List Nat)
    (h1 : codeListLE a b = true) (h2 : codeListLE b c = true) :
    codeListLE a c = true := by
  induction a generalizing b c with
  | nil => simp [codeListLE]
  | cons x xs ih =>
    cases b with
    | nil => simp [codeListLE] at h1
    | cons y ys =>
      cases c with
      | nil => simp [codeListLE] at h2
      | cons z zs =>
        simp only [codeListLE, Bool.or_eq_true, Bool.and_eq_true, beq_iff_eq,
          decide_eq_true_eq] at h1 h2 ⊢
        rcases h1 with h1 | ⟨hxy, hr1⟩
        · rcases h2 with h2 | ⟨hyz, _⟩
          · exact Or.inl (by omega)
          · exact Or.inl (by omega)
        · rcases h2 with h2 | ⟨hyz, hr2⟩
          · exact Or.inl (by omega)
          · exact Or.inr ⟨by omega, ih ys zs hr1 hr2⟩

theorem keyLE_refl (a : Value) : keyLE a a = true := by
  cases a with
  | null => rfl
  | str s => simp [keyLE, codeListLE_refl]
  | num n => simp [keyLE]

theorem keyLE_total (a b : Value) : (keyLE a b || keyLE b a) = true := by
  cases a <;> cases b <;>
    first
      | rfl
      | (simp only [keyLE, Bool.or_eq_true, decide_eq_true_eq]; omega)
      | exact codeListLE_total _ _

theorem keyLE_trans (a b c : Value)
    (h1 : keyLE a b = true) (h2 : keyLE b c = true) : keyLE a c = true := by
  cases a <;> cases b <;> cases c <;>
    first
      | rfl
      | (simp only [keyLE, decide_eq_true_eq] at h1 h2 ⊢; omega)
      | (simp only [keyLE] at h1 h2 ⊢; exact codeListLE_trans _ _ _ h1 h2)
      | simp_all [keyLE]

theorem keyLEDesc_refl (a : Value) : keyLEDesc a a = true := by
  cases a with
  | null => rfl
  | str s => simp [keyLEDesc, keyLE, codeListLE_refl]
  | num n => simp [keyLEDesc, keyLE]

theorem keyLEDesc_total (a b : Value) : (keyLEDesc a b || keyLEDesc b a) = true := by
  cases a <;> cases b <;>
    first
      | rfl
      | (simp only [keyLEDesc, keyLE, Bool.or_eq_true, decide_eq_true_eq]; omega)
      | exact codeListLE_total _ _

theorem keyLEDesc_trans (a b c : Value)
    (h1 : keyLEDesc a b = true) (h2 : keyLEDesc b c = true) : keyLEDesc a c = true := by
  cases a <;> cases b <;> cases c <;>
    first
      | rfl
      | (simp only [keyLEDesc, keyLE, decide_eq_true_eq] at h1 h2 ⊢; omega)
      | (simp only [keyLEDesc, keyLE] at h1 h2 ⊢; exact codeListLE_trans _ _ _ h2 h1)
      | simp_all [keyLEDesc, keyLE]

theorem rowLE_refl (sc : String) (asc : Bool) (r : Row) : rowLE sc asc r r = true := by
  cases asc <;> simp [rowLE, keyLE_refl, keyLEDesc_refl]

theorem rowLE_total (sc : String) (asc : Bool) (a b : Row) :
    (rowLE sc asc a b || rowLE sc asc b a) = true := by
  cases asc <;> simp only [rowLE, if_true, if_false, Bool.false_eq_true] <;>
    first | exact keyLE_total _ _ | exact keyLEDesc_total _ _

theorem rowLE_trans (sc : String) (asc : Bool) (a b c : Row)
    (h1 : rowLE sc asc a b = true) (h2 : rowLE sc asc b c = true) :
    rowLE sc asc a c = true := by
  cases asc <;> simp only [rowLE, if_true, if_false, Bool.false_eq_true] at h1 h2 ⊢
  · exact keyLEDesc_trans _ _ _ h1 h2
  · exact keyLE_trans _ _ _ h1 h2

/-! ### Unfolding the callback past a successful employee-ID step -/

theorem update_table_step (e : Option Int) (ms sc : Option String) (so : String)
    (t df1 : Table) (h1 : empFilter t e = Except.ok df1) :
    update_table e ms sc so t =
      match find_column df1 "Ar_Military" with
      | none => Except.ok ([], [], colNotFoundMsg)
      | some ar_col =>
        if (sortStep (militaryFilter df1 ar_col ms) sc so).rows.isEmpty then
          Except.ok ([], [], noDataMsg)
        else
          Except.ok ((sortStep (militaryFilter df1 ar_col ms) sc so).rows,
            (sortStep (militaryFilter df1 ar_col ms) sc so).columns, "") := by
  unfold update_table
  rw [show copyTable t = t from rfl, h1]

theorem update_table_eq_error (e : Option Int) (ms sc : Option String) (so : String)
    (t : Table) (s : String) (h1 : empFilter t e = Except.error s) :
    update_table e ms sc so t = Except.error s := by
  unfold update_table
  rw [show copyTable t = t from rfl, h1]

theorem update_table_eq_none (e : Option Int) (ms sc : Option String) (so : String)
    (t df1 : Table) (h1 : empFilter t e = Except.ok df1)
    (h2 : find_column df1 "Ar_Military" = none) :
    update_table e ms sc so t = Except.ok ([], [], colNotFoundMsg) := by
  rw [update_table_step e ms sc so t df1 h1, h2]

theorem update_table_eq_some (e : Option Int) (ms sc : Option String) (so : String)
    (t df1 : Table) (c : String) (h1 : empFilter t e = Except.ok df1)
    (h2 : find_column df1 "Ar_Military" = some c) :
    update_table e ms sc so t =
      if (sortStep (militaryFilter df1 c ms) sc so).rows.isEmpty then
        Except.ok ([], [], noDataMsg)
      else
        Except.ok ((sortStep (militaryFilter df1 c ms) sc so).rows,
          (sortStep (militaryFilter df1 c ms) sc so).columns, "") := by
  rw [update_table_step e ms sc so t df1 h1, h2]

/-! ### Example data (the spec's scenario table and edge-case tables) -/

/-- Scenario row 1: employee 1, status "مؤجل". -/
def r1 : Row := [("Person_Instance_ID", Value.num 1), ("Ar_Military", Value.str "مؤجل")]

/-- Scenario row 2: employee 2, empty status. -/
def r2 : Row := [("Person_Instance_ID", Value.num 2), ("Ar_Military", Value.str "")]

/-- Scenario row 3: employee 3, status "مؤجل". -/
def r3 : Row := [("Person_Instance_ID", Value.num 3), ("Ar_Military", Value.str "مؤجل")]

/-- The spec's scenario table. -/
def exT : Table :=
  { columns := ["Person_Instance_ID", "Ar_Military"], rows := [r1, r2, r3] }

/-- Row keyed 2 under the empty-named column. -/
def r51 : Row := [("", Value.num 2), ("Ar_Military", Value.str "x")]

/-- Row keyed 1 under the empty-named column. -/
def r52 : Row := [("", Value.num 1), ("Ar_Military", Value.str "x")]

/-- Table with an empty-named column, out of order for that column. -/
def T5 : Table := { columns := ["", "Ar_Military"], rows := [r51, r52] }

/-! ### C1 -/

/-- C1 counterexample: when the status column cannot be resolved the code
returns the message with a warning-sign prefix, not the bare message
"Column 'Ar_Military' not found." the claim states. -/
theorem c1_counterexample :
    update_table none none none "asc" (Table.mk ["X"] []) =
      Except.ok ([], [], colNotFoundMsg) ∧
    colNotFoundMsg ≠ "Column 'Ar_Military' not found." :=
  ⟨rfl, by decide⟩

/-- C1 (amended): whenever the employee-ID step completes and resolving
"Ar_Military" against the table-so-far fails, `update_table` aborts and
returns the empty table with the message "⚠️ Column 'Ar_Military' not
found.", regardless of the military-status selection (including none) and
of the sort spec; and the resolution outcome does not depend on the
employee-ID value, because the employee-ID filter preserves the column
list. -/
theorem c1_column_missing_aborts (t df1 : Table) (e : Option Int)
    (ms sc : Option String) (so : String)
    (h1 : empFilter t e = Except.ok df1)
    (h2 : find_column df1 "Ar_Military" = none) :
    update_table e ms sc so t = Except.ok ([], [], colNotFoundMsg) ∧
    find_column df1 "Ar_Military" = find_column t "Ar_Military" := by
  constructor
  · rw [update_table_step e ms sc so t df1 h1, h2]
  · have hc := empFilter_columns t e df1 h1
    unfold find_column
    rw [hc]

/-- C1 witness: a table without any military-status-like column, with an
employee-ID filter, a status selection and a sort spec all present. -/
theorem c1_witness :
    update_table (some 1) (some "مؤجل") (some "Person_Instance_ID") "desc"
      (Table.mk ["Person_Instance_ID"] [[("Person_Instance_ID", Value.num 1)]]) =
      Except.ok ([], [], colNotFoundMsg) :=
  (c1_column_missing_aborts
    (Table.mk ["Person_Instance_ID"] [[("Person_Instance_ID", Value.num 1)]])
    (Table.mk ["Person_Instance_ID"] [[("Person_Instance_ID", Value.num 1)]])
    (some 1) (some "مؤجل") (some "Person_Instance_ID") "desc" rfl rfl).1

/-! ### C2 -/

/-- C2 counterexample: on a table whose only column is named "" and target
"", the claim's described scan returns that column (its normalised name
equals the normalised target) but the code skips falsy names and returns
not-found. -/
theorem c2_counterexample :
    find_column (Table.mk [""] []) "" = none ∧
    find_column_claimed (Table.mk [""] []) "" = some "" ∧
    find_column (Table.mk [""] []) "" ≠ find_column_claimed (Table.mk [""] []) "" :=
  ⟨rfl, rfl, by decide⟩

/-- C2 (amended): `find_column` normalises the target by trimming and
lowercasing and equals the two-pass first-match scan — first pass first
exact normalised match, second pass (only if the first fails) first column
whose normalised name contains the normalised target — except that columns
with empty names are skipped in both passes; being a `List.find?` over the
declared order in each pass, the result is deterministic and the first
declared match wins. -/
theorem c2_resolver_two_pass (df : Table) (target : String) :
    find_column df target = find_column_described df target := by
  simp only [find_column, find_column_described, findExactLoop_eq_find?,
    findSubLoop_eq_find?]

/-! ### C3 -/

/-- C3: once the status column `c` resolves, the military-status filter
reads that column as trimmed text and keeps (a) every row when nothing is
selected, (b) exactly the rows whose trimmed value is null or empty for the
"__NONE__" sentinel, and (c) exactly the rows whose trimmed value equals
the trimmed selection for a concrete category. -/
theorem c3_status_filter (df : Table) (c : String) :
    (militaryFilter df c none).rows = df.rows ∧
    (militaryFilter df c (some "__NONE__")).rows =
      df.rows.filter (fun r =>
        decide (trimmedVal r c = none ∨ trimmedVal r c = some [])) ∧
    (∀ s : String, s ≠ "" → s ≠ "__NONE__" →
      (militaryFilter df c (some s)).rows =
        df.rows.filter (fun r => trimmedVal r c == some (pyStrip s))) := by
  refine ⟨rfl, ?_, ?_⟩
  · show df.rows.filter _ = df.rows.filter _
    apply List.filter_congr
    intro r _
    cases htv : trimmedVal r c with
    | none => simp [htv]
    | some l => cases l <;> simp [htv]
  · intro s hs1 hs2
    have h1 : (s == "") = false := by simp [hs1]
    have h2 : (s == "__NONE__") = false := by simp [hs2]
    simp only [militaryFilter, h1, h2, Bool.false_eq_true, if_false]

/-- C3 witness: the spec's scenario table, filtered by the concrete
category "مؤجل", keeps exactly rows 1 and 3. -/
theorem c3_witness :
    (militaryFilter exT "Ar_Military" (some "مؤجل")).rows =
      exT.rows.filter (fun r => trimmedVal r "Ar_Military" == some (pyStrip "مؤجل")) ∧
    (militaryFilter exT "Ar_Military" (some "مؤجل")).rows = [r1, r3] :=
  ⟨(c3_status_filter exT "Ar_Military").2.2 "مؤجل" (by decide) (by decide), rfl⟩

/-! ### C4 -/

/-- C4 counterexample: with zero rows left the code returns the message
with a warning-sign prefix, not exactly "No data found with current
filters." as the claim states. -/
theorem c4_counterexample :
    update_table none none none "asc" (Table.mk ["Ar_Military"] []) =
      Except.ok ([], [], noDataMsg) ∧
    noDataMsg ≠ "No data found with current filters." :=
  ⟨rfl, by decide⟩

/-- C4 (amended): when the status column resolves and the filtered-sorted
table is empty, `update_table` returns the empty table with the message
"⚠️ No data found with current filters."; when it is non-empty the message
is the empty string; and once the column resolved the column-not-found
message can never be returned, so the two messages are mutually exclusive
with the missing-column check running first. -/
theorem c4_empty_result_message (t df1 : Table) (c : String) (e : Option Int)
    (ms sc : Option String) (so : String)
    (h1 : empFilter t e = Except.ok df1)
    (h2 : find_column df1 "Ar_Military" = some c) :
    ((sortStep (militaryFilter df1 c ms) sc so).rows = [] →
      update_table e ms sc so t = Except.ok ([], [], noDataMsg)) ∧
    ((sortStep (militaryFilter df1 c ms) sc so).rows ≠ [] →
      update_table e ms sc so t =
        Except.ok ((sortStep (militaryFilter df1 c ms) sc so).rows,
          (sortStep (militaryFilter df1 c ms) sc so).columns, "")) ∧
    (∀ rows cols, update_table e ms sc so t ≠ Except.ok (rows, cols, colNotFoundMsg)) := by
  have hstep := update_table_eq_some e ms sc so t df1 c h1 h2
  refine ⟨?_, ?_, ?_⟩
  · intro hempty
    rw [hstep, if_pos (by simp [List.isEmpty_iff, hempty])]
  · intro hne
    rw [hstep, if_neg (by simp [List.isEmpty_iff, hne])]
  · intro rows cols hcontra
    rw [hstep] at hcontra
    split at hcontra <;>
      simp only [Except.ok.injEq, Prod.mk.injEq] at hcontra <;>
      exact absurd hcontra.2.2 (by decide)

/-- C4 witness: employee-ID 99 matches nothing in the scenario table, so
the result is empty with the no-data message. -/
theorem c4_witness :
    update_table (some 99) none none "asc" exT = Except.ok ([], [], noDataMsg) :=
  (c4_empty_result_message exT
    (Table.mk ["Person_Instance_ID", "Ar_Military"] []) "Ar_Military"
    (some 99) none none "asc" rfl rfl).1 rfl

/-! ### C5 -/

/-- C5 counterexample: the empty-named column is present in the table, yet
selecting it as sort column leaves the rows unsorted (the first row's key
does not precede the second row's key), because the code's truthiness test
skips sorting for the name "". -/
theorem c5_counterexample :
    ("" ∈ T5.columns) ∧ sortStep T5 (some "") "asc" = T5 ∧
    T5.rows = [r51, r52] ∧ rowLE "" true r51 r52 = false :=
  ⟨by decide, by decide, rfl, by decide⟩

/-- C5 (amended): if the sort spec names a non-empty column present in the
table-so-far, the remaining rows are sorted by that column's value — the
output is a permutation of the input, pairwise ordered by the column key,
ascending exactly when the direction is "asc" (the relative order of rows
with equal keys is implementation-defined by the sort and not asserted);
if the sort column is unset, empty, or absent, sorting is skipped and the
row order from the filtering steps is preserved unchanged. -/
theorem c5_sort_step (df : Table) (so : String) :
    (sortStep df none so = df) ∧
    (∀ sc : String, sc = "" ∨ sc ∉ df.columns → sortStep df (some sc) so = df) ∧
    (∀ sc : String, sc ≠ "" → sc ∈ df.columns →
      ((sortStep df (some sc) so).rows.Perm df.rows ∧
       List.Pairwise (fun a b => rowLE sc (so == "asc") a b = true)
         (sortStep df (some sc) so).rows)) := by
  refine ⟨rfl, ?_, ?_⟩
  · intro sc hsc
    rcases hsc with h | h
    · subst h; rfl
    · by_cases he : sc = ""
      · subst he; rfl
      · simp only [sortStep]
        rw [if_neg (by simp [he]), if_neg h]
  · intro sc hne hmem
    have hrw : sortStep df (some sc) so =
        { df with rows := df.rows.mergeSort (rowLE sc (so == "asc")) } := by
      simp only [sortStep]
      rw [if_neg (by simp [hne]), if_pos hmem]
    refine ⟨?_, ?_⟩
    · rw [hrw]; exact List.mergeSort_perm _ _
    · rw [hrw]
      exact List.sorted_mergeSort (rowLE_trans sc (so == "asc"))
        (rowLE_total sc (so == "asc")) df.rows

unseal List.merge List.mergeSort in
/-- C5 witness: descending sort of the scenario table by employee ID
reverses the rows, a permutation sorted by the key. -/
theorem c5_witness :
    (sortStep exT (some "Person_Instance_ID") "desc").rows.Perm exT.rows ∧
    (sortStep exT (some "Person_Instance_ID") "desc").rows = [r3, r2, r1] :=
  ⟨((c5_sort_step exT "desc").2.2 "Person_Instance_ID" (by decide) (by decide)).1, rfl⟩

/-! ### C6 -/

/-- C6: every successful run returns rows forming a sub-multiset of the
original table's rows — filtering only removes rows and sorting only
permutes them. -/
theorem c6_rows_subperm (t : Table) (e : Option Int) (ms sc : Option String)
    (so : String) (rows : List Row) (cols : List String) (m : String)
    (h : update_table e ms sc so t = Except.ok (rows, cols, m)) :
    rows.Subperm t.rows := by
  cases he : empFilter t e with
  | error s =>
    rw [update_table_eq_error e ms sc so t s he] at h
    simp at h
  | ok df1 =>
    have hsub1 : df1.rows.Sublist t.rows := empFilter_rows_sublist t e df1 he
    cases hf : find_column df1 "Ar_Military" with
    | none =>
      rw [update_table_eq_none e ms sc so t df1 he hf] at h
      simp only [Except.ok.injEq, Prod.mk.injEq] at h
      rw [← h.1]
      exact List.nil_subperm
    | some c =>
      rw [update_table_eq_some e ms sc so t df1 c he hf] at h
      split at h
      · simp only [Except.ok.injEq, Prod.mk.injEq] at h
        rw [← h.1]
        exact List.nil_subperm
      · simp only [Except.ok.injEq, Prod.mk.injEq] at h
        rw [← h.1]
        have hperm := sortStep_rows_perm (militaryFilter df1 c ms) sc so
        have hsub2 := militaryFilter_rows_sublist df1 c ms
        exact hperm.subperm.trans (hsub2.trans hsub1).subperm

/-- C6 witness: the rows returned for the concrete-category scenario are a
sub-multiset of the scenario table's rows. -/
theorem c6_witness : List.Subperm [r1, r3] exT.rows :=
  c6_rows_subperm exT none (some "مؤجل") none "asc" [r1, r3]
    ["Person_Instance_ID", "Ar_Military"] "" rfl

/-! ### C7 -/

/-- C7: on any table that carries the required `Person_Instance_ID` column,
the pipeline is total — for every employee-ID value, status selection and
sort spec it returns a table plus a status string and never raises. -/
theorem c7_total (t : Table) (e : Option Int) (ms sc : Option String) (so : String)
    (h : "Person_Instance_ID" ∈ t.columns) :
    ∃ out : TableOutput, update_table e ms sc so t = Except.ok out := by
  have h1 : ∃ df1, empFilter t e = Except.ok df1 := by
    cases e with
    | none => exact ⟨t, rfl⟩
    | some n =>
      simp only [empFilter]
      by_cases ht : (trimCodes (intCodes n) == []) = true
      · rw [if_pos ht]
        exact ⟨t, rfl⟩
      · rw [if_neg ht, if_pos h]
        exact ⟨_, rfl⟩
  obtain ⟨df1, hdf1⟩ := h1
  cases hf : find_column df1 "Ar_Military" with
  | none => exact ⟨_, update_table_eq_none e ms sc so t df1 hdf1 hf⟩
  | some c =>
    rw [update_table_eq_some e ms sc so t df1 c hdf1 hf]
    split
    · exact ⟨_, rfl⟩
    · exact ⟨_, rfl⟩

/-- C7 witness: a degenerate combination (ID present, sentinel selection,
descending sort) still returns a value, never an exception. -/
theorem c7_witness :
    (update_table (some 1) (some "__NONE__") (some "Ar_Military") "desc" exT).isOk
      = true := by
  obtain ⟨out, hout⟩ :=
    c7_total exT (some 1) (some "__NONE__") (some "Ar_Military") "desc" (by decide)
  rw [hout]
  rfl

/-! ### C8 -/

/-- C8: the pipeline is a pure deterministic function of the loaded table
and the control values — two invocations on identical inputs are the same
value — and each run starts from a copy that equals the original table,
which is never mutated (all steps build new tables). -/
theorem c8_pure_deterministic (t : Table) (e : Option Int) (ms sc : Option String)
    (so : String) :
    update_table e ms sc so t = update_table e ms sc so t ∧ copyTable t = t :=
  ⟨rfl, rfl⟩

/-! ### C9 -/

/-- C9 counterexample: a whitespace-only column name is truthy, so it is
not skipped, yet its normalised name is empty; with a blank target the
resolver returns it, contradicting the claim that no column with empty
normalised name is ever returned. -/
theorem c9_counterexample :
    find_column (Table.mk ["  "] []) " " = some "  " ∧ pyNorm "  " = [] :=
  ⟨rfl, rfl⟩

/-- C9 (amended): `find_column` never returns a column whose name is the
empty string — columns with empty names are skipped in both passes — and
any returned column is one of the table's declared columns. -/
theorem find_column_result (df : Table) (target : String) (c : String)
    (h : find_column df target = some c) : c ≠ "" ∧ c ∈ df.columns := by
  simp only [find_column, findExactLoop_eq_find?, findSubLoop_eq_find?] at h
  split at h
  · next c0 heq =>
    cases h
    have hp := List.find?_some heq
    have hm := List.mem_of_find?_eq_some heq
    simp only [Bool.and_eq_true, Bool.not_eq_true', beq_eq_false_iff_ne] at hp
    exact ⟨hp.1, hm⟩
  · next heq =>
    have hp := List.find?_some h
    have hm := List.mem_of_find?_eq_some h
    simp only [Bool.and_eq_true, Bool.not_eq_true', beq_eq_false_iff_ne] at hp
    exact ⟨hp.1, hm⟩

/-- C9 witness: resolving "ar_military" on a one-column table returns the
non-empty declared column. -/
theorem c9_witness :
    "Ar_Military" ≠ "" ∧ "Ar_Military" ∈ (Table.mk ["Ar_Military"] []).columns :=
  find_column_result (Table.mk ["Ar_Military"] []) "ar_military" "Ar_Military" rfl

/-! ### C10 -/

/-- C10: whenever the pipeline returns a non-empty row list, the returned
column list is exactly the original table's column list in declared order —
the employee-ID filter, the status filter and the sort never add, remove,
rename or reorder columns. -/
theorem c10_columns_preserved (t : Table) (e : Option Int) (ms sc : Option String)
    (so : String) (rows : List Row) (cols : List String) (m : String)
    (h : update_table e ms sc so t = Except.ok (rows, cols, m)) (hne : rows ≠ []) :
    cols = t.columns := by
  cases he : empFilter t e with
  | error s =>
    rw [update_table_eq_error e ms sc so t s he] at h
    simp at h
  | ok df1 =>
    cases hf : find_column df1 "Ar_Military" with
    | none =>
      rw [update_table_eq_none e ms sc so t df1 he hf] at h
      simp only [Except.ok.injEq, Prod.mk.injEq] at h
      exact absurd h.1.symm hne
    | some c =>
      rw [update_table_eq_some e ms sc so t df1 c he hf] at h
      split at h
      · simp only [Except.ok.injEq, Prod.mk.injEq] at h
        exact absurd h.1.symm hne
      · simp only [Except.ok.injEq, Prod.mk.injEq] at h
        rw [← h.2.1, sortStep_columns, militaryFilter_columns]
        exact empFilter_columns t e df1 he

/-- C10 witness: a non-empty scenario run returns the original columns. -/
theorem c10_witness :
    (["Person_Instance_ID", "Ar_Military"] : List String) = exT.columns :=
  c10_columns_preserved exT none (some "مؤجل") none "asc" [r1, r3]
    ["Person_Instance_ID", "Ar_Military"] "" rfl (by decide)

end MilitaryDash
